import Mathlib

set_option autoImplicit false

/-!
Verification development for the on-disk persistence core of ovsdb
(src/ovsdb/file.c): the standalone database-file layer that replays a
JSON-record log into a database, serializes live transactions as delta
records, and drives compaction.

The embedding below translates the functions of file.c into executable Lean
definitions.  External collaborators that are not part of the source under
study (the log container log.c, the schema/datum layer ovsdb-data.c, the
transaction engine transaction.c, the uuid and time libraries) are modelled
explicitly; each such modelling choice is documented at the definition it
concerns.  Machine integers (off_t byte counts, unsigned transaction counts,
long long int milliseconds) are modelled as Nat/Int; none of the quantities
involved approach overflow in the code's own regime.
-/

/-- JSON values as produced by the ovs json library: null, booleans, integers,
strings, arrays and objects.  Objects are association lists (the C `shash`
keeps unique keys; member order models shash iteration order). -/
inductive Json : Type where
  | null : Json
  | bool : Bool → Json
  | int : Int → Json
  | str : String → Json
  | arr : List Json → Json
  | obj : List (String × Json) → Json

/-- True exactly on `Json.int` values, mirroring `node_json->type == JSON_INTEGER`. -/
def Json.isInt : Json → Bool
  | Json.int _ => true
  | _ => false

/-- First-match association lookup, the behaviour of `shash_find_data`. -/
def assocFind {α : Type} (l : List (String × α)) (k : String) : Option α :=
  match l with
  | [] => none
  | (k', v) :: rest => if k' = k then some v else assocFind rest k

/-- A database row: column name to datum value.  The datum layer
(ovsdb-data.c) is external to the source under study; a datum is modelled by
the JSON value it was parsed from. -/
structure Row where
  fields : List (String × Json)

/-- The part of a table schema the file layer consults: its column names
(`ovsdb_table_schema_get_column`). -/
structure TableSchema where
  columns : List String

/-- A table: its schema and its rows keyed by the textual form of their UUID. -/
structure Table where
  schema : TableSchema
  rows : List (String × Row)

/-- The in-memory database: tables keyed by name (`db->tables`). -/
structure Db where
  tables : List (String × Table)

/-- Lookup `shash_find_data(&db->tables, table_name)`. -/
def dbFindTable (db : Db) (name : String) : Option Table :=
  assocFind db.tables name

/-- Replace the table bound to `name` (the eager in-place update performed by
the transaction ops); the set of table names never changes. -/
def dbSetTable (db : Db) (name : String) (t : Table) : Db :=
  ⟨db.tables.map fun p => if p.1 = name then (p.1, t) else p⟩

/-- Lookup `ovsdb_table_get_row`. -/
def tableGetRow (t : Table) (uuid : String) : Option Row :=
  assocFind t.rows uuid

/-- Replace the row bound to `uuid` (effect of committing a row modify). -/
def tableSetRow (t : Table) (uuid : String) (r : Row) : Table :=
  ⟨t.schema, t.rows.map fun p => if p.1 = uuid then (p.1, r) else p⟩

/-- Insert a fresh row under `uuid` (effect of `ovsdb_txn_row_insert`). -/
def tableInsertRow (t : Table) (uuid : String) (r : Row) : Table :=
  ⟨t.schema, t.rows ++ [(uuid, r)]⟩

/-- Remove the row bound to `uuid` (effect of `ovsdb_txn_row_delete`). -/
def tableDeleteRow (t : Table) (uuid : String) : Table :=
  ⟨t.schema, t.rows.filter fun p => p.1 != uuid⟩

/-- Install a datum into a row slot (`ovsdb_datum_swap` into
`row->fields[column->index]`): replace the column's value, or add it if the
row had no value for that column yet. -/
def rowSetField (r : Row) (c : String) (v : Json) : Row :=
  if (assocFind r.fields c).isSome then
    ⟨r.fields.map fun p => if p.1 = c then (p.1, v) else p⟩
  else
    ⟨r.fields ++ [(c, v)]⟩

/-- Hexadecimal digit test used by the UUID parser model. -/
def isHexChar (c : Char) : Bool :=
  c.isDigit || ('a' ≤ c && c ≤ 'f') || ('A' ≤ c && c ≤ 'F')

/-- Modelled from the spec: `uuid_from_string` (lib/uuid.c, not under src/)
parses the canonical textual UUID form
"xxxxxxxx-xxxx-xxxx-xxxx-xxxxxxxxxxxx"; the spec says only that "an invalid
UUID string is an error".  A UUID is modelled by its 36-character text. -/
def uuid_from_string (s : String) : Option String :=
  let cs := s.data
  if cs.length == 36 &&
      ((List.range 36).zip cs).all (fun p =>
        if p.1 == 8 || p.1 == 13 || p.1 == 18 || p.1 == 23 then p.2 == '-'
        else isHexChar p.2) then
    some s
  else
    none

/-- Inner loop of `ovsdb_file_update_row_from_json` (file.c:255-276): for each
member, look the column up in the table schema; unknown columns are skipped in
converting mode and are an error otherwise; the datum parse
(`ovsdb_datum_from_json`, external) is modelled as accepting the JSON value,
which is then installed into the row. -/
def updateRowFields (schema : TableSchema) (converting : Bool) :
    Row → List (String × Json) → Except String Row
  | row, [] => Except.ok row
  | row, (cname, val) :: rest =>
    if schema.columns.contains cname then
      updateRowFields schema converting (rowSetField row cname val) rest
    else if converting then
      updateRowFields schema converting row rest
    else
      Except.error ("No column " ++ cname ++ " in table.")

/-- Embeds `ovsdb_file_update_row_from_json` (file.c:243-279): a row update must be a
JSON object; its members are applied to the row column by column. -/
def ovsdb_file_update_row_from_json (schema : TableSchema) (converting : Bool)
    (row : Row) (json : Json) : Except String Row :=
  match json with
  | Json.obj members => updateRowFields schema converting row members
  | _ => Except.error "row must be JSON object"

/-- Embeds `ovsdb_file_txn_row_from_json` (file.c:281-312): JSON null deletes the row
(an error if it does not exist); an object modifies the row in place if it
exists, otherwise inserts a fresh row with the given UUID.  The C code applies
these operations eagerly through the transaction; the embedding applies them
directly to the table, with an error discarding the whole result (abort). -/
def ovsdb_file_txn_row_from_json (table : Table) (converting : Bool)
    (uuid : String) (json : Json) : Except String Table :=
  match json with
  | Json.null =>
    match tableGetRow table uuid with
    | none =>
      Except.error ("transaction deletes row " ++ uuid ++ " that does not exist")
    | some _ => Except.ok (tableDeleteRow table uuid)
  | _ =>
    match tableGetRow table uuid with
    | some row =>
      match ovsdb_file_update_row_from_json table.schema converting row json with
      | Except.error e => Except.error e
      | Except.ok row' => Except.ok (tableSetRow table uuid row')
    | none =>
      match ovsdb_file_update_row_from_json table.schema converting ⟨[]⟩ json with
      | Except.error e => Except.error e
      | Except.ok row' => Except.ok (tableInsertRow table uuid row')

/-- Inner loop of `ovsdb_file_txn_table_from_json` (file.c:325-341): each
member key must parse as a UUID, and its value is applied as a row change. -/
def txnTableFromMembers (converting : Bool) :
    Table → List (String × Json) → Except String Table
  | table, [] => Except.ok table
  | table, (uuidStr, rowJson) :: rest =>
    match uuid_from_string uuidStr with
    | none => Except.error (uuidStr ++ " is not a valid UUID")
    | some u =>
      match ovsdb_file_txn_row_from_json table converting u rowJson with
      | Except.error e => Except.error e
      | Except.ok table' => txnTableFromMembers converting table' rest

/-- Embeds `ovsdb_file_txn_table_from_json` (file.c:314-344): a per-table change must
be a JSON object mapping UUID strings to row changes. -/
def ovsdb_file_txn_table_from_json (table : Table) (converting : Bool)
    (json : Json) : Except String Table :=
  match json with
  | Json.obj members => txnTableFromMembers converting table members
  | _ => Except.error "object expected"

/-- Inner loop of `ovsdb_file_txn_from_json` (file.c:367-391): each top-level
key is looked up among the database's tables; if absent, `_date` with an
integer value is skipped, then `_comment` (any value) or any key in converting
mode is skipped, and anything else is an unknown-table error; if present, the
value is decoded as that table's change set. -/
def ovsdb_file_txn_from_members (converting : Bool) :
    Db → List (String × Json) → Except String Db
  | db, [] => Except.ok db
  | db, (tableName, nodeJson) :: rest =>
    match dbFindTable db tableName with
    | none =>
      if tableName = "_date" ∧ nodeJson.isInt = true then
        ovsdb_file_txn_from_members converting db rest
      else if tableName = "_comment" ∨ converting = true then
        ovsdb_file_txn_from_members converting db rest
      else
        Except.error ("No table named " ++ tableName ++ ".")
    | some table =>
      match ovsdb_file_txn_table_from_json table converting nodeJson with
      | Except.error e => Except.error e
      | Except.ok table' =>
        ovsdb_file_txn_from_members converting (dbSetTable db tableName table') rest

/-- Embeds `ovsdb_file_txn_from_json` (file.c:352-398): a transaction delta must be a
JSON object; an error anywhere aborts the whole transaction
(`ovsdb_txn_abort`), which in this pure embedding means the database value is
discarded and only the error is returned. -/
def ovsdb_file_txn_from_json (db : Db) (json : Json) (converting : Bool) :
    Except String Db :=
  match json with
  | Json.obj members => ovsdb_file_txn_from_members converting db members
  | _ => Except.error "object expected"

/-- One on-disk log record: its parsed JSON payload and the number of bytes
the whole framed record occupies in the file (header + payload + newline),
so that `ovsdb_log_get_offset` just past a record is the sum of the sizes of
the records up to and including it. -/
structure LogRecord where
  json : Json
  size : Nat

/-- Byte position just past the last record of a log
(`ovsdb_log_get_offset` after writing, log.c being external). -/
def logOffset (log : List LogRecord) : Nat :=
  (log.map LogRecord.size).sum

/-- State threaded through the replay loop of `ovsdb_file_open`
(file.c:186-209): the database built so far, the counters that will seed the
`ovsdb_file` handle, the byte offset of the log read position, the number of
post-schema records consumed, and whether the loop stopped on a swallowed
error. -/
structure ReplayOut where
  db : Db
  n_transactions : Nat
  snapshot_size : Nat
  offset : Nat
  consumed : Nat
  failed : Bool

/-- Replay-loop state just after record 0 (the schema) has been read:
nothing replayed, log position just past the schema record. -/
def initReplay (schemaRec : LogRecord) (db0 : Db) : ReplayOut :=
  ⟨db0, 0, 0, schemaRec.size, 0, false⟩

/-- Successful iteration of the replay loop: the record is consumed, the
transaction count goes up, and after the first successful transaction the
current log offset is recorded as the snapshot size (file.c:206-208). -/
def replayStepOk (st : ReplayOut) (r : LogRecord) (db'' : Db) : ReplayOut :=
  let n' := st.n_transactions + 1
  let off' := st.offset + r.size
  { db := db''
    n_transactions := n'
    snapshot_size := if n' = 1 then off' else st.snapshot_size
    offset := off'
    consumed := st.consumed + 1
    failed := false }

/-- The replay loop of `ovsdb_file_open` (file.c:188-209), parameterized by
the record decoder `f` (instantiated with `ovsdb_file_txn_from_json`) and by
the engine's transaction commit `c` (`ovsdb_txn_commit`, external; on error
the eagerly applied changes are reverted, so the database stays as it was).
On either failure the loop performs `ovsdb_log_unread` and breaks: the
failing record is not consumed and nothing after it is examined.  Note that
`n_transactions` is incremented between the decode and the commit, exactly
as in the C code. -/
def replayLoop (f : Db → Json → Except String Db) (c : Db → Except String Db) :
    List LogRecord → ReplayOut → ReplayOut
  | [], st => st
  | r :: rest, st =>
    match f st.db r.json with
    | Except.error _ => { st with failed := true }
    | Except.ok db' =>
      match c db' with
      | Except.error _ =>
        { st with n_transactions := st.n_transactions + 1, failed := true }
      | Except.ok db'' => replayLoop f c rest (replayStepOk st r db'')

/-- The per-record decoder used by the replay loop: `ovsdb_file_txn_from_json`
with the converting flag fixed (converting iff an alternate schema was
supplied to the open). -/
def txnStep (converting : Bool) : Db → Json → Except String Db :=
  fun db j => ovsdb_file_txn_from_json db j converting

/-- Minimum number of milliseconds between database compactions
(file.c:43). -/
def COMPACT_MIN_MSEC : Nat := 10 * 60 * 1000

/-- Minimum number of milliseconds between compaction attempts after a
failure (file.c:47). -/
def COMPACT_RETRY_MSEC : Nat := 60 * 1000

/-- Embeds `struct ovsdb_file` (file.c:469-476): the open database file's log and
compaction accounting.  The log handle is modelled by the list of records the
file currently retains; times are milliseconds on a single wall clock (the
source draws on `time_msec`/`time_wall_msec` from the external timeval
library; the spec models one wall clock). -/
structure OvsdbFile where
  log : List LogRecord
  last_compact : Nat
  next_compact : Nat
  n_transactions : Nat
  snapshot_size : Nat

/-- Embeds `ovsdb_file_create` (file.c:478-495): seed the handle with the replay
counters; `last_compact` is the time of creation and `next_compact` is
`COMPACT_MIN_MSEC` later. -/
def ovsdb_file_create (log : List LogRecord) (n_transactions snapshot_size now : Nat) :
    OvsdbFile :=
  { log := log
    last_compact := now
    next_compact := now + COMPACT_MIN_MSEC
    n_transactions := n_transactions
    snapshot_size := snapshot_size }

/-- Successful result of `ovsdb_file_open`: the replayed database, the file
handle, how many post-schema records were consumed (the log read position is
just before the first unconsumed record, thanks to `ovsdb_log_unread`), and
whether a replay error was logged and swallowed. -/
structure OpenOk where
  db : Db
  file : OvsdbFile
  consumed : Nat
  replayFailed : Bool

/-- Embeds `ovsdb_file_open` (file.c:156-241) for a standalone log, starting from
the point where record 0 has been read: `db0` is the empty database built
from the schema (record 0 parsing and `ovsdb_create` are external; a log
whose record 0 does not parse never reaches the replay loop).  The replay
loop runs over the remaining records; any error inside it is logged and
swallowed, and the open still succeeds with whatever was recovered.  The
handle's log keeps only the records actually consumed (a subsequent write
through the log would truncate the unread tail). -/
def ovsdb_file_open (records : List LogRecord) (db0 : Db) (converting : Bool)
    (c : Db → Except String Db) (now : Nat) : Except String OpenOk :=
  match records with
  | [] => Except.error "database file contains no schema"
  | schemaRec :: rest =>
    let r := replayLoop (txnStep converting) c rest (initReplay schemaRec db0)
    Except.ok
      { db := r.db
        file := ovsdb_file_create (schemaRec :: rest.take r.consumed)
                  r.n_transactions r.snapshot_size now
        consumed := r.consumed
        replayFailed := r.failed }

/-- The snapshot size an `ovsdb_file_open` run records, `none` if the open
fails outright. -/
def openSnapshotSize (records : List LogRecord) (db0 : Db) (converting : Bool)
    (c : Db → Except String Db) (now : Nat) : Option Nat :=
  match ovsdb_file_open records db0 converting c now with
  | Except.ok r => some r.file.snapshot_size
  | Except.error _ => none

/-- The observable outcome of an `ovsdb_file_open` run used by the replay
claims: the resulting database, the number of post-schema records consumed,
and whether a replay error was swallowed; `none` if the open fails. -/
def openReplayInfo (records : List LogRecord) (db0 : Db) (converting : Bool)
    (c : Db → Except String Db) (now : Nat) : Option (Db × Nat × Bool) :=
  match ovsdb_file_open records db0 converting c now with
  | Except.ok r => some (r.db, r.consumed, r.replayFailed)
  | Except.error _ => none

/-- The compaction gate of `ovsdb_file_commit` (file.c:535-538), written with
the same comparisons in the same order: current time at least `next_compact`,
at least 100 transactions, log at least 10 MiB, and `log_size / 4` at least
the snapshot size (integer division, exactly as the C source). -/
def compactGate (next_compact n_transactions log_size snapshot_size now : Nat) : Bool :=
  decide (next_compact ≤ now) && decide (100 ≤ n_transactions) &&
    decide (10 * 1024 * 1024 ≤ log_size) && decide (snapshot_size ≤ log_size / 4)

/-- Embeds `ovsdb_file_compact` (file.c:555-590).  The replacement-log pipeline
(`ovsdb_log_replace_start`, `ovsdb_file_save_copy__` into it,
`ovsdb_log_replace_commit`; all through the external log container) is
modelled by its outcome `newLog`: either the error of whichever step failed,
or the records of the freshly swapped-in log.  On success the counters are
reset (file.c:581-585); on failure nothing at all is changed — the original
log and every field of the handle stay as they were — and the error is
returned. -/
def ovsdb_file_compact (file : OvsdbFile) (now : Nat)
    (newLog : Except String (List LogRecord)) :
    Except String Unit × OvsdbFile :=
  match newLog with
  | Except.error e => (Except.error e, file)
  | Except.ok nl =>
    (Except.ok (),
      { log := nl
        last_compact := now
        next_compact := now + COMPACT_MIN_MSEC
        n_transactions := 1
        snapshot_size := file.snapshot_size })

/-- Outcome of one `ovsdb_file_commit` call: the value returned to the
caller, the resulting handle state, whether a record was appended, and
whether the gate-triggered compaction was attempted. -/
structure CommitOutcome where
  result : Except String Unit
  file : OvsdbFile
  wroteRecord : Bool
  compactAttempted : Bool

/-- Embeds `ovsdb_file_commit` (file.c:508-553).  The encoder's output
(`ovsdb_file_txn_add_row` over the engine's change iterator, both external to
this call) is modelled by `record`: `none` when the transaction produced no
table entries, in which case nothing is written and the commit succeeds
immediately.  `writeOk` models the outcome of the external log write/sync
(`ovsdb_file_txn_commit`'s I/O); on failure the error is returned before the
transaction count is incremented.  After a successful append the count goes
up and the compaction gate is evaluated; if it fires, compaction is
attempted, and a compaction failure is logged, bumps `next_compact` by
`COMPACT_RETRY_MSEC`, and is otherwise swallowed — the commit still returns
success. -/
def ovsdb_file_commit (file : OvsdbFile) (record : Option LogRecord) (now : Nat)
    (writeOk : Except String Unit) (newLog : Except String (List LogRecord)) :
    CommitOutcome :=
  match record with
  | none => ⟨Except.ok (), file, false, false⟩
  | some rec' =>
    match writeOk with
    | Except.error e => ⟨Except.error ("writing transaction failed: " ++ e), file, false, false⟩
    | Except.ok _ =>
      let file1 : OvsdbFile :=
        { file with log := file.log ++ [rec'], n_transactions := file.n_transactions + 1 }
      let log_size := logOffset file1.log
      if compactGate file1.next_compact file1.n_transactions log_size
          file1.snapshot_size now then
        match ovsdb_file_compact file1 now newLog with
        | (Except.error _, f') =>
          ⟨Except.ok (), { f' with next_compact := now + COMPACT_RETRY_MSEC }, true, true⟩
        | (Except.ok _, f') => ⟨Except.ok (), f', true, true⟩
      else
        ⟨Except.ok (), file1, true, false⟩

/-- Input of one commit in a run of commits: the encoded record (if any), the
time of the call, and the modelled outcomes of the external log write and of
the compaction pipeline should they be reached. -/
structure CommitInput where
  record : Option LogRecord
  now : Nat
  writeOk : Except String Unit
  newLog : Except String (List LogRecord)

/-- Fold a sequence of commits over a file handle, reporting the final state
and whether any of them attempted a compaction. -/
def runCommits : OvsdbFile → List CommitInput → OvsdbFile × Bool
  | file, [] => (file, false)
  | file, i :: is =>
    let o := ovsdb_file_commit file i.record i.now i.writeOk i.newLog
    let r := runCommits o.file is
    (r.1, o.compactAttempted || r.2)

/-- The states an open database file can be in: created by
`ovsdb_file_open`/`ovsdb_file_create` at some time, then mutated only by
commits and compactions, each at a time no earlier than the previous step
(the monotonic clock behind `time_msec`). -/
inductive Reach : Nat → OvsdbFile → Prop where
  | create (log : List LogRecord) (n snap now : Nat) :
      Reach now (ovsdb_file_create log n snap now)
  | commit (t : Nat) (file : OvsdbFile) (record : Option LogRecord) (now : Nat)
      (writeOk : Except String Unit) (newLog : Except String (List LogRecord)) :
      Reach t file → t ≤ now →
      Reach now (ovsdb_file_commit file record now writeOk newLog).file
  | compact (t : Nat) (file : OvsdbFile) (now : Nat)
      (newLog : Except String (List LogRecord)) :
      Reach t file → t ≤ now →
      Reach now (ovsdb_file_compact file now newLog).2

/-- The `_date` heuristic of `do_show_log_standalone` (file.c:1316-1322):
a timestamp strictly below `INT32_MAX` is re-interpreted as seconds and
scaled to milliseconds. -/
def show_log_date_msec (t : Int) : Int :=
  if t < 2147483647 then t * 1000 else t

/-- The `_date` rendering of `do_show_log_standalone` (file.c:1311-1327): a
record's `_date` member is rendered (as milliseconds of local time) only when
present with an integer value, after the seconds heuristic. -/
def do_show_log_standalone_date (recordJson : Json) : Option Int :=
  match recordJson with
  | Json.obj members =>
    match assocFind members "_date" with
    | some (Json.int t) => some (show_log_date_msec t)
    | _ => none
  | _ => none

/-- The accumulator of `struct ovsdb_file_txn` (file.c:50-54): the
transaction JSON as a whole (absent until the first row is added) and the
table whose per-table object rows are currently being appended to.  The
transaction JSON is kept structured as table name to row-UUID to row JSON. -/
structure FileTxn where
  json : Option (List (String × List (String × Json)))
  table : Option String

/-- Append a row entry to the object of the most recently added table, the
effect of `json_object_put(ftxn->table_json, uuid, row)`. -/
def appendToLastTable :
    List (String × List (String × Json)) → String → Json →
    List (String × List (String × Json))
  | [], _, _ => []
  | [(t, rows)], u, r => [(t, rows ++ [(u, r)])]
  | x :: xs, u, r => x :: appendToLastTable xs u r

/-- Embeds `ovsdb_file_txn_add_row` (file.c:607-661) in the snapshot-writer
configuration (`old == NULL`, `changed == NULL`, i.e. every row is an
insert): the row JSON starts as an empty object — so it is never NULL and the
row is always emitted — and gains every column selected by `emitCol`, which
abstracts the external per-column test "persistent, not the UUID column, and
the datum differs from the type's default" (`column->persistent`,
`OVSDB_COL_UUID`, `ovsdb_datum_is_default`).  The transaction JSON is created
on the first emitted row, and a fresh per-table object is started whenever
the table changes. -/
def ovsdb_file_txn_add_row (emitCol : String → Json → Bool) (ftxn : FileTxn)
    (tableName uuid : String) (row : Row) : FileTxn :=
  let rowJson := Json.obj (row.fields.filter fun p => emitCol p.1 p.2)
  if ftxn.table = some tableName then
    { ftxn with json := some (appendToLastTable (ftxn.json.getD []) uuid rowJson) }
  else
    { json := some ((ftxn.json.getD []) ++ [(tableName, [(uuid, rowJson)])])
      table := some tableName }

/-- Replace-or-append of a member, the behaviour of `json_object_put` on a
JSON object (non-objects are left alone; the callers only ever pass
objects). -/
def jsonObjPut (j : Json) (k : String) (v : Json) : Json :=
  match j with
  | Json.obj members =>
    if (assocFind members k).isSome then
      Json.obj (members.map fun p => if p.1 = k then (p.1, v) else p)
    else
      Json.obj (members ++ [(k, v)])
  | other => other

/-- Embeds `ovsdb_file_txn_commit` (file.c:663-691): when the accumulated
transaction JSON is absent it is replaced by an empty object, then the
comment (if any) and the `_date` stamp are added, and the record is appended
to the log.  The external write and optional fsync are modelled as
succeeding; their failure paths are covered by the `writeOk` parameter of
`ovsdb_file_commit`. -/
def ovsdb_file_txn_commit (json : Option Json) (comment : Option String)
    (date : Int) (log : List Json) : List Json :=
  let j := json.getD (Json.obj [])
  let j1 := match comment with
    | some c => jsonObjPut j "_comment" (Json.str c)
    | none => j
  let j2 := jsonObjPut j1 "_date" (Json.int date)
  log ++ [j2]

/-- The double loop of `ovsdb_file_save_copy__` (file.c:417-426): every row
of every table is added to the accumulated file transaction as an insert. -/
def snapshotFileTxn (emitCol : String → Json → Bool) (db : Db) : FileTxn :=
  db.tables.foldl
    (fun ftxn tp =>
      tp.2.rows.foldl
        (fun f rp => ovsdb_file_txn_add_row emitCol f tp.1 rp.1 rp.2) ftxn)
    ⟨none, none⟩

/-- Render the accumulated file transaction as the JSON value the C code
built incrementally. -/
def fileTxnJson (ftxn : FileTxn) : Option Json :=
  ftxn.json.map fun ts => Json.obj (ts.map fun p => (p.1, Json.obj p.2))

/-- Embeds `ovsdb_file_save_copy__` (file.c:400-430): the records written into a
fresh log — the schema (its serialization `ovsdb_schema_to_json` being
external, the record's JSON is a parameter) followed by the single
transaction record produced by `ovsdb_file_txn_commit` over the accumulated
snapshot transaction. -/
def ovsdb_file_save_copy_records (emitCol : String → Json → Bool) (db : Db)
    (schemaJson : Json) (comment : Option String) (date : Int) : List Json :=
  ovsdb_file_txn_commit (fileTxnJson (snapshotFileTxn emitCol db)) comment date
    [schemaJson]

/-! Helper lemmas about the replay loop. -/

theorem replayLoop_append (f : Db → Json → Except String Db)
    (c : Db → Except String Db) (xs ys : List LogRecord) (st : ReplayOut)
    (h : (replayLoop f c xs st).failed = false) :
    replayLoop f c (xs ++ ys) st = replayLoop f c ys (replayLoop f c xs st) := by
  induction xs generalizing st with
  | nil => simp [replayLoop]
  | cons r rest ih =>
    rw [List.cons_append]
    cases hf : f st.db r.json with
    | error e => simp [replayLoop, hf] at h
    | ok db' =>
      cases hc : c db' with
      | error e => simp [replayLoop, hf, hc] at h
      | ok db'' =>
        simp only [replayLoop, hf, hc] at h ⊢
        exact ih _ h

theorem replayLoop_consumed (f : Db → Json → Except String Db)
    (c : Db → Except String Db) (xs : List LogRecord) (st : ReplayOut)
    (h : (replayLoop f c xs st).failed = false) :
    (replayLoop f c xs st).consumed = st.consumed + xs.length := by
  induction xs generalizing st with
  | nil => simp [replayLoop]
  | cons r rest ih =>
    cases hf : f st.db r.json with
    | error e => simp [replayLoop, hf] at h
    | ok db' =>
      cases hc : c db' with
      | error e => simp [replayLoop, hf, hc] at h
      | ok db'' =>
        simp only [replayLoop, hf, hc] at h ⊢
        rw [ih _ h]
        simp [replayStepOk]
        omega

theorem replayLoop_snapshot_frozen (f : Db → Json → Except String Db)
    (c : Db → Except String Db) (xs : List LogRecord) (st : ReplayOut)
    (h : st.n_transactions ≠ 0) :
    (replayLoop f c xs st).snapshot_size = st.snapshot_size := by
  induction xs generalizing st with
  | nil => simp [replayLoop]
  | cons r rest ih =>
    cases hf : f st.db r.json with
    | error e => simp [replayLoop, hf]
    | ok db' =>
      cases hc : c db' with
      | error e => simp [replayLoop, hf, hc]
      | ok db'' =>
        simp only [replayLoop, hf, hc]
        rw [ih _ (by simp [replayStepOk])]
        have hne : st.n_transactions + 1 ≠ 1 := by omega
        simp [replayStepOk, hne]

/-- C1 (amended): after opening a standalone database file whose first
post-schema record replays successfully, the `snapshot_size` field equals the
log offset just past record index 1, that is, the byte length of record 1
PLUS the byte length of the schema record that precedes it (the code reads
`ovsdb_log_get_offset` after the first replayed transaction and deliberately
does not compensate for the schema's size; file.c:183-185, 206-208). -/
theorem snapshot_size_after_open (schemaRec r1 : LogRecord) (rest : List LogRecord)
    (db0 db1 db2 : Db) (converting : Bool) (c : Db → Except String Db) (now : Nat)
    (h1 : ovsdb_file_txn_from_json db0 r1.json converting = Except.ok db1)
    (h2 : c db1 = Except.ok db2) :
    openSnapshotSize (schemaRec :: r1 :: rest) db0 converting c now
      = some (schemaRec.size + r1.size) := by
  unfold openSnapshotSize ovsdb_file_open
  have hstep : txnStep converting (initReplay schemaRec db0).db r1.json
      = Except.ok db1 := by
    simpa [txnStep, initReplay] using h1
  simp only [replayLoop, hstep, h2]
  rw [replayLoop_snapshot_frozen _ _ _ _ (by simp [replayStepOk, initReplay])]
  simp [replayStepOk, initReplay, ovsdb_file_create]

/-- Witness for C1 (amended) at a concrete two-record log: schema record of
7 bytes, first transaction record of 5 bytes, snapshot size 12. -/
theorem snapshot_size_after_open_witness :
    openSnapshotSize [⟨Json.obj [], 7⟩, ⟨Json.obj [], 5⟩] ⟨[]⟩ false Except.ok 0
      = some (7 + 5) :=
  snapshot_size_after_open ⟨Json.obj [], 7⟩ ⟨Json.obj [], 5⟩ [] ⟨[]⟩ ⟨[]⟩ ⟨[]⟩
    false Except.ok 0 rfl rfl

/-- Counterexample to C1 as stated: opening a log whose schema record is 7
bytes and whose record index 1 is 5 bytes yields `snapshot_size` 12 — the
schema's bytes are included — and not the byte length 5 of record 1 alone. -/
theorem snapshot_size_counts_schema_bytes_cex :
    openSnapshotSize [⟨Json.obj [], 7⟩, ⟨Json.obj [], 5⟩] ⟨[]⟩ false Except.ok 0
      = some 12 ∧ (12 : Nat) ≠ 5 :=
  ⟨rfl, by decide⟩

/-- The compaction attempt of `ovsdb_file_commit` happens exactly when the
gate condition evaluates true on the post-append state. -/
theorem commit_compactAttempted (file : OvsdbFile) (rec' : LogRecord) (now : Nat)
    (newLog : Except String (List LogRecord)) :
    (ovsdb_file_commit file (some rec') now (Except.ok ()) newLog).compactAttempted
      = compactGate file.next_compact (file.n_transactions + 1)
          (logOffset (file.log ++ [rec'])) file.snapshot_size now := by
  by_cases hg : compactGate file.next_compact (file.n_transactions + 1)
      (logOffset (file.log ++ [rec'])) file.snapshot_size now = true
  · cases newLog with
    | error e => simp [ovsdb_file_commit, ovsdb_file_compact, hg]
    | ok nl => simp [ovsdb_file_commit, ovsdb_file_compact, hg]
  · rw [Bool.not_eq_true] at hg
    simp [ovsdb_file_commit, hg]

/-- C2: during `ovsdb_file_commit`, after a record has been appended,
compaction is attempted if and only if all four gate conditions hold: the
current time is at least `next_compact`, the transaction count (including the
record just appended) is at least 100, the log is at least 10 MiB, and the
log size is at least 4 times the snapshot size (the code's
`log_size / 4 >= snapshot_size` is equivalent over the natural numbers;
file.c:529-550). -/
theorem compaction_gate_iff (file : OvsdbFile) (rec' : LogRecord) (now : Nat)
    (newLog : Except String (List LogRecord)) :
    (ovsdb_file_commit file (some rec') now (Except.ok ()) newLog).compactAttempted = true
      ↔ (file.next_compact ≤ now ∧ 100 ≤ file.n_transactions + 1
          ∧ 10 * 1024 * 1024 ≤ logOffset (file.log ++ [rec'])
          ∧ 4 * file.snapshot_size ≤ logOffset (file.log ++ [rec'])) := by
  rw [commit_compactAttempted]
  simp only [compactGate, Bool.and_eq_true, decide_eq_true_eq]
  omega

/-- C3: for a log whose record 0 parses as a valid schema, if the decode or
the engine commit of some later record fails during the replay loop, the open
still succeeds; the database is the one built from the records replayed so
far, the failing record is pushed back (`ovsdb_log_unread`: the read position
stays just before it) so nothing after it is consumed, and the error is only
logged (the `replayFailed` flag), never propagated (file.c:188-217). -/
theorem replay_error_swallowed (schemaRec bad : LogRecord) (good tail : List LogRecord)
    (db0 : Db) (converting : Bool) (c : Db → Except String Db) (now : Nat)
    (hgood : (replayLoop (txnStep converting) c good (initReplay schemaRec db0)).failed
        = false)
    (hbad :
      (∃ e, txnStep converting
          (replayLoop (txnStep converting) c good (initReplay schemaRec db0)).db bad.json
          = Except.error e)
      ∨ (∃ db' e, txnStep converting
            (replayLoop (txnStep converting) c good (initReplay schemaRec db0)).db bad.json
            = Except.ok db' ∧ c db' = Except.error e)) :
    openReplayInfo (schemaRec :: (good ++ bad :: tail)) db0 converting c now
      = some ((replayLoop (txnStep converting) c good (initReplay schemaRec db0)).db,
          good.length, true) := by
  unfold openReplayInfo ovsdb_file_open
  have hc := replayLoop_consumed (txnStep converting) c good (initReplay schemaRec db0) hgood
  dsimp only
  rw [replayLoop_append _ _ _ _ _ hgood]
  rcases hbad with ⟨e, he⟩ | ⟨db', e, he1, he2⟩
  · simp [replayLoop, he]
    simpa [initReplay] using hc
  · simp [replayLoop, he1, he2]
    simpa [initReplay] using hc

/-- Witness for C3 at a concrete log: a valid empty schema record followed by
a record whose payload is the integer 0, which is not a JSON object and so
fails to decode; the open succeeds with the empty database, zero records
consumed, and the swallowed-error flag set. -/
theorem replay_error_swallowed_witness :
    openReplayInfo [⟨Json.obj [], 3⟩, ⟨Json.int 0, 4⟩] ⟨[]⟩ false Except.ok 0
      = some ((replayLoop (txnStep false) Except.ok []
          (initReplay ⟨Json.obj [], 3⟩ ⟨[]⟩)).db, 0, true) :=
  replay_error_swallowed ⟨Json.obj [], 3⟩ ⟨Json.int 0, 4⟩ [] [] ⟨[]⟩ false
    Except.ok 0 rfl (Or.inl ⟨"object expected", rfl⟩)

/-- Counterexample to C4 as stated: a failing `ovsdb_file_compact` call (here
at time 100, with `next_compact` previously 0) leaves `next_compact` at its
old value 0; it is NOT set to `now + COMPACT_RETRY_MSEC`.  The retry bump is
performed by `ovsdb_file_commit` around the gate-triggered call, not by
`ovsdb_file_compact` itself (file.c:580-585 versus file.c:540-549). -/
theorem compact_failure_no_retry_bump_cex :
    (ovsdb_file_compact ⟨[], 0, 0, 0, 0⟩ 100 (Except.error "disk full")).2.next_compact = 0
      ∧ (0 : Nat) ≠ 100 + COMPACT_RETRY_MSEC :=
  ⟨rfl, by decide⟩

/-- C4 (amended): if any step of `ovsdb_file_compact` fails, the original log
is left untouched, the error is returned to the caller, and every field of
the handle — `last_compact`, `next_compact`, `n_transactions`,
`snapshot_size` — is unchanged; the bump `next_compact = now +
COMPACT_RETRY_MSEC` is performed by `ovsdb_file_commit` when its
gate-triggered compaction fails, with `last_compact` unchanged, the
transaction count keeping only the increment from the appended record, and
the commit itself still succeeding. -/
theorem compact_failure_state :
    (∀ (file : OvsdbFile) (now : Nat) (e : String),
      ovsdb_file_compact file now (Except.error e) = (Except.error e, file))
    ∧ ∀ (file : OvsdbFile) (rec' : LogRecord) (now : Nat) (e : String),
        compactGate file.next_compact (file.n_transactions + 1)
            (logOffset (file.log ++ [rec'])) file.snapshot_size now = true →
        (ovsdb_file_commit file (some rec') now (Except.ok ()) (Except.error e)).result
            = Except.ok ()
        ∧ (ovsdb_file_commit file (some rec') now (Except.ok ()) (Except.error e)).file.log
            = file.log ++ [rec']
        ∧ (ovsdb_file_commit file (some rec') now (Except.ok ()) (Except.error e)).file.next_compact
            = now + COMPACT_RETRY_MSEC
        ∧ (ovsdb_file_commit file (some rec') now (Except.ok ()) (Except.error e)).file.last_compact
            = file.last_compact
        ∧ (ovsdb_file_commit file (some rec') now (Except.ok ()) (Except.error e)).file.n_transactions
            = file.n_transactions + 1
        ∧ (ovsdb_file_commit file (some rec') now (Except.ok ()) (Except.error e)).file.snapshot_size
            = file.snapshot_size := by
  constructor
  · intro file now e
    rfl
  · intro file rec' now e hg
    simp [ovsdb_file_commit, ovsdb_file_compact, hg]

/-- Witness for C4 (amended): a concrete failing direct compaction leaves the
handle untouched, and a concrete commit whose gate fires and whose compaction
fails bumps `next_compact` to `now + COMPACT_RETRY_MSEC`. -/
theorem compact_failure_state_witness :
    ovsdb_file_compact ⟨[], 3, 5, 7, 9⟩ 100 (Except.error "disk full")
        = (Except.error "disk full", (⟨[], 3, 5, 7, 9⟩ : OvsdbFile))
      ∧ (ovsdb_file_commit ⟨[], 0, 0, 99, 0⟩ (some ⟨Json.obj [], 10485760⟩) 0
          (Except.ok ()) (Except.error "x")).file.next_compact = 0 + COMPACT_RETRY_MSEC :=
  ⟨compact_failure_state.1 ⟨[], 3, 5, 7, 9⟩ 100 "disk full",
    (compact_failure_state.2 ⟨[], 0, 0, 99, 0⟩ ⟨Json.obj [], 10485760⟩ 0 "x"
      (by decide)).2.2.1⟩

/-- Every reachable file-handle state was stamped no later than the current
step's time and satisfies the compaction-clock invariant. -/
theorem reach_time_bound (t : Nat) (file : OvsdbFile) (h : Reach t file) :
    file.last_compact ≤ t ∧ file.last_compact ≤ file.next_compact := by
  induction h with
  | create log n snap now =>
    exact ⟨Nat.le_refl _, Nat.le_add_right _ _⟩
  | commit t' f record now writeOk newLog hr hle ih =>
    obtain ⟨ih1, ih2⟩ := ih
    cases record with
    | none => exact ⟨le_trans ih1 hle, ih2⟩
    | some rec' =>
      cases writeOk with
      | error e => exact ⟨le_trans ih1 hle, ih2⟩
      | ok u =>
        by_cases hg : compactGate f.next_compact (f.n_transactions + 1)
            (logOffset (f.log ++ [rec'])) f.snapshot_size now = true
        · cases newLog with
          | error e =>
            simp only [ovsdb_file_commit, ovsdb_file_compact, hg, if_true]
            constructor <;> omega
          | ok nl =>
            simp only [ovsdb_file_commit, ovsdb_file_compact, hg, if_true]
            constructor <;> omega
        · rw [Bool.not_eq_true] at hg
          simp only [ovsdb_file_commit, hg, Bool.false_eq_true, if_false]
          constructor <;> omega
  | compact t' f now newLog hr hle ih =>
    obtain ⟨ih1, ih2⟩ := ih
    cases newLog with
    | error e => exact ⟨le_trans ih1 hle, ih2⟩
    | ok nl => exact ⟨Nat.le_refl _, Nat.le_add_right _ _⟩

/-- C5: at every point while a database file is open — after creation of the
handle, after every commit (including one whose triggered compaction failed)
and after every compaction — `next_compact ≥ last_compact` holds
(file.c:478-495, 540-549, 580-585; times are drawn from the monotonic
clock, so each step happens no earlier than the one before). -/
theorem next_compact_ge_last_compact (t : Nat) (file : OvsdbFile)
    (h : Reach t file) : file.last_compact ≤ file.next_compact :=
  (reach_time_bound t file h).2

/-- Witness for C5 on a concrete trace: create at time 7, then a commit at
time 9 whose gate-triggered work is irrelevant; the invariant holds in the
resulting state. -/
theorem next_compact_ge_last_compact_witness :
    (ovsdb_file_commit (ovsdb_file_create [] 0 0 7) (some ⟨Json.obj [], 5⟩) 9
        (Except.ok ()) (Except.error "x")).file.last_compact
      ≤ (ovsdb_file_commit (ovsdb_file_create [] 0 0 7) (some ⟨Json.obj [], 5⟩) 9
        (Except.ok ()) (Except.error "x")).file.next_compact :=
  next_compact_ge_last_compact 9 _
    (Reach.commit 7 _ (some ⟨Json.obj [], 5⟩) 9 (Except.ok ()) (Except.error "x")
      (Reach.create [] 0 0 7) (by decide))

/-- A commit called strictly before `next_compact` never attempts compaction
and leaves `next_compact` unchanged. -/
theorem commit_before_next_compact (file : OvsdbFile) (record : Option LogRecord)
    (now : Nat) (writeOk : Except String Unit)
    (newLog : Except String (List LogRecord)) (h : now < file.next_compact) :
    (ovsdb_file_commit file record now writeOk newLog).compactAttempted = false
    ∧ (ovsdb_file_commit file record now writeOk newLog).file.next_compact
        = file.next_compact := by
  cases record with
  | none => exact ⟨rfl, rfl⟩
  | some rec' =>
    cases writeOk with
    | error e => exact ⟨rfl, rfl⟩
    | ok u =>
      have hg : compactGate file.next_compact (file.n_transactions + 1)
          (logOffset (file.log ++ [rec'])) file.snapshot_size now = false := by
        simp only [compactGate, Bool.and_eq_false_iff]
        left; left; left
        simpa using Nat.not_le.2 h
      simp [ovsdb_file_commit, hg]

/-- A run of commits all strictly before the file's `next_compact` attempts
no compaction and preserves `next_compact`. -/
theorem runCommits_before_next (inputs : List CommitInput) (file : OvsdbFile)
    (h : ∀ i ∈ inputs, i.now < file.next_compact) :
    (runCommits file inputs).2 = false
    ∧ (runCommits file inputs).1.next_compact = file.next_compact := by
  induction inputs generalizing file with
  | nil => exact ⟨rfl, rfl⟩
  | cons i is ih =>
    have hi := h i (by simp)
    have hstep := commit_before_next_compact file i.record i.now i.writeOk i.newLog hi
    have hrest : ∀ j ∈ is,
        j.now < (ovsdb_file_commit file i.record i.now i.writeOk i.newLog).file.next_compact := by
      intro j hj
      rw [hstep.2]
      exact h j (by simp [hj])
    have ihh := ih _ hrest
    constructor
    · simp [runCommits, hstep.1, ihh.1]
    · simp [runCommits, ihh.2, hstep.2]

/-- C9: opening a database file initializes `last_compact` to the time of
open and `next_compact` to that time plus `COMPACT_MIN_MSEC` (10 minutes),
so the automatic compaction gate in commit can never fire within 10 minutes
of opening the file, no matter how many transactions are committed or how
large the log grows (file.c:478-495, 534-539). -/
theorem no_compaction_within_min_interval (log : List LogRecord)
    (n snap t0 : Nat) (inputs : List CommitInput)
    (h : ∀ i ∈ inputs, i.now < t0 + COMPACT_MIN_MSEC) :
    (ovsdb_file_create log n snap t0).last_compact = t0
    ∧ (ovsdb_file_create log n snap t0).next_compact = t0 + COMPACT_MIN_MSEC
    ∧ (runCommits (ovsdb_file_create log n snap t0) inputs).2 = false := by
  refine ⟨rfl, rfl, ?_⟩
  exact (runCommits_before_next inputs _ h).1

/-- Witness for C9: a file opened at time 0 receives a huge commit (100 MB
record, transaction count and size conditions all satisfiable) just before
the 10-minute mark; no compaction is attempted. -/
theorem no_compaction_within_min_interval_witness :
    (ovsdb_file_create [] 1000 0 0).last_compact = 0
    ∧ (ovsdb_file_create [] 1000 0 0).next_compact = 0 + COMPACT_MIN_MSEC
    ∧ (runCommits (ovsdb_file_create [] 1000 0 0)
        [⟨some ⟨Json.obj [], 104857600⟩, 599999, Except.ok (), Except.error "x"⟩]).2
      = false :=
  no_compaction_within_min_interval [] 1000 0 0
    [⟨some ⟨Json.obj [], 104857600⟩, 599999, Except.ok (), Except.error "x"⟩]
    (by intro i hi; simp only [List.mem_singleton] at hi; subst hi; decide)

/-- C6: a per-row value of JSON null for a row UUID that does not exist in
the table at that point of the replay is an error; the error aborts the whole
transaction — `ovsdb_file_txn_from_json` returns only the error, so nothing
reaches the engine — and a replay-loop iteration hitting such a record stops
replay with the state otherwise unchanged (file.c:286-294, 395-397,
194-197). -/
theorem delete_missing_row_aborts (db : Db) (converting : Bool) (tname u : String)
    (table : Table) (c : Db → Except String Db) (sz : Nat)
    (rest : List LogRecord) (st : ReplayOut)
    (hT : dbFindTable db tname = some table)
    (hU : uuid_from_string u = some u)
    (hR : tableGetRow table u = none)
    (hst : st.db = db) :
    ovsdb_file_txn_from_json db (Json.obj [(tname, Json.obj [(u, Json.null)])]) converting
      = Except.error ("transaction deletes row " ++ u ++ " that does not exist")
    ∧ replayLoop (txnStep converting) c
        (⟨Json.obj [(tname, Json.obj [(u, Json.null)])], sz⟩ :: rest) st
      = { st with failed := true } := by
  have hmain : ovsdb_file_txn_from_json db
      (Json.obj [(tname, Json.obj [(u, Json.null)])]) converting
      = Except.error ("transaction deletes row " ++ u ++ " that does not exist") := by
    simp [ovsdb_file_txn_from_json, ovsdb_file_txn_from_members, hT,
      ovsdb_file_txn_table_from_json, txnTableFromMembers, hU,
      ovsdb_file_txn_row_from_json, hR]
  refine ⟨hmain, ?_⟩
  have hstep : txnStep converting st.db
      (Json.obj [(tname, Json.obj [(u, Json.null)])])
      = Except.error ("transaction deletes row " ++ u ++ " that does not exist") := by
    rw [hst]
    exact hmain
  simp [replayLoop, hstep]

/-- Witness for C6: a database with one empty table T; deleting the all-zero
UUID from T errors, and a replay-loop step on such a record stops with the
failed flag set. -/
theorem delete_missing_row_aborts_witness :
    ovsdb_file_txn_from_json ⟨[("T", ⟨⟨[]⟩, []⟩)]⟩
        (Json.obj [("T", Json.obj [("00000000-0000-0000-0000-000000000000", Json.null)])])
        false
      = Except.error ("transaction deletes row "
          ++ "00000000-0000-0000-0000-000000000000" ++ " that does not exist")
    ∧ replayLoop (txnStep false) Except.ok
        [⟨Json.obj [("T", Json.obj
            [("00000000-0000-0000-0000-000000000000", Json.null)])], 5⟩]
        (initReplay ⟨Json.obj [], 3⟩ ⟨[("T", ⟨⟨[]⟩, []⟩)]⟩)
      = { initReplay ⟨Json.obj [], 3⟩ ⟨[("T", ⟨⟨[]⟩, []⟩)]⟩ with failed := true } :=
  delete_missing_row_aborts ⟨[("T", ⟨⟨[]⟩, []⟩)]⟩ false "T"
    "00000000-0000-0000-0000-000000000000" ⟨⟨[]⟩, []⟩ Except.ok 5 []
    (initReplay ⟨Json.obj [], 3⟩ ⟨[("T", ⟨⟨[]⟩, []⟩)]⟩) rfl rfl rfl rfl

/-- Counterexample to C7 as stated: C7 claims `_date` with an integer value
is ignored "regardless of the database's schema", but the code looks the key
up among the database's tables FIRST (file.c:372-379); for a database whose
tables include one literally named `_date`, the key is treated as that table
and the integer value fails to decode as a table change — while the same
database decodes the empty transaction fine. -/
theorem reserved_keys_cex :
    ovsdb_file_txn_from_json ⟨[("_date", ⟨⟨[]⟩, []⟩)]⟩
        (Json.obj [("_date", Json.int 5)]) false
      = Except.error "object expected"
    ∧ ovsdb_file_txn_from_json ⟨[("_date", ⟨⟨[]⟩, []⟩)]⟩ (Json.obj []) false
      = Except.ok ⟨[("_date", ⟨⟨[]⟩, []⟩)]⟩ :=
  ⟨rfl, rfl⟩

theorem assocFind_map_preserve {α : Type} (l : List (String × α)) (m k : String)
    (t : α) (h : assocFind l k = none) :
    assocFind (l.map fun p => if p.1 = m then (p.1, t) else p) k = none := by
  induction l with
  | nil => rfl
  | cons p rest ih =>
    obtain ⟨pk, pv⟩ := p
    by_cases hpk : pk = k
    · simp [assocFind, hpk] at h
    · have h' : assocFind rest k = none := by simpa [assocFind, hpk] using h
      simp only [List.map_cons]
      split <;> simpa [assocFind, hpk] using ih h'

theorem dbFindTable_setTable_none (db : Db) (m : String) (t : Table) (k : String)
    (h : dbFindTable db k = none) : dbFindTable (dbSetTable db m t) k = none :=
  assocFind_map_preserve db.tables m k t h

/-- A member whose key is not a table of the database and is one of the
reserved keys (`_date` with an integer value, or `_comment` with any value)
is skipped by the decode loop wherever it occurs: removing it does not change
the result.  Uses that the transaction ops never add table names to the
database. -/
theorem from_members_skip (converting : Bool) (k : String) (v : Json)
    (hsk : (k = "_date" ∧ v.isInt = true) ∨ k = "_comment") :
    ∀ (pre post : List (String × Json)) (db : Db), dbFindTable db k = none →
    ovsdb_file_txn_from_members converting db (pre ++ (k, v) :: post)
      = ovsdb_file_txn_from_members converting db (pre ++ post) := by
  intro pre
  induction pre with
  | nil =>
    intro post db hk
    rcases hsk with ⟨hkd, hvi⟩ | hkc
    · subst hkd
      simp [ovsdb_file_txn_from_members, hk, hvi]
    · subst hkc
      simp [ovsdb_file_txn_from_members, hk]
  | cons p pre' ih =>
    intro post db hk
    obtain ⟨n, j⟩ := p
    simp only [List.cons_append, ovsdb_file_txn_from_members]
    cases hft : dbFindTable db n with
    | none =>
      by_cases h1 : n = "_date" ∧ j.isInt = true
      · simp only [h1, if_pos]
        exact ih post db hk
      · by_cases h2 : n = "_comment" ∨ converting = true
        · simp only [h1, if_neg, h2, if_pos, if_false]
          exact ih post db hk
        · simp [h1, h2]
    | some table =>
      cases hft2 : ovsdb_file_txn_table_from_json table converting j with
      | error e => simp [hft2]
      | ok table' =>
        simp only [hft2]
        refine ih post (dbSetTable db n table') ?_
        rcases hsk with ⟨hkd, _⟩ | hkc
        · subst hkd; exact dbFindTable_setTable_none db n table' _ hk
        · subst hkc; exact dbFindTable_setTable_none db n table' _ hk

/-- C7 (amended): provided the database has no table literally named `_date`
or `_comment` (which the schema layer guarantees by reserving names beginning
with an underscore), the top-level keys `_date` (with an integer value) and
`_comment` (with a value of any type) are ignored wherever they occur in a
transaction delta and are never treated as table names (file.c:367-391). -/
theorem reserved_keys_ignored (converting : Bool) (db : Db)
    (pre post : List (String × Json)) (v : Int) (cv : Json)
    (hd : dbFindTable db "_date" = none) (hc : dbFindTable db "_comment" = none) :
    ovsdb_file_txn_from_members converting db (pre ++ ("_date", Json.int v) :: post)
      = ovsdb_file_txn_from_members converting db (pre ++ post)
    ∧ ovsdb_file_txn_from_members converting db (pre ++ ("_comment", cv) :: post)
      = ovsdb_file_txn_from_members converting db (pre ++ post)
    ∧ ovsdb_file_txn_from_json db (Json.obj (pre ++ ("_date", Json.int v) :: post)) converting
      = ovsdb_file_txn_from_json db (Json.obj (pre ++ post)) converting
    ∧ ovsdb_file_txn_from_json db (Json.obj (pre ++ ("_comment", cv) :: post)) converting
      = ovsdb_file_txn_from_json db (Json.obj (pre ++ post)) converting := by
  have h1 := from_members_skip converting "_date" (Json.int v)
    (Or.inl ⟨rfl, rfl⟩) pre post db hd
  have h2 := from_members_skip converting "_comment" cv (Or.inr rfl) pre post db hc
  exact ⟨h1, h2, h1, h2⟩

/-- Witness for C7 (amended) on a concrete database with a single table T:
a delta consisting of only a `_date` or only a `_comment` member decodes the
same as the empty delta. -/
theorem reserved_keys_ignored_witness :
    ovsdb_file_txn_from_members false ⟨[("T", ⟨⟨[]⟩, []⟩)]⟩
        ([] ++ ("_date", Json.int 42) :: [])
      = ovsdb_file_txn_from_members false ⟨[("T", ⟨⟨[]⟩, []⟩)]⟩ ([] ++ [])
    ∧ ovsdb_file_txn_from_members false ⟨[("T", ⟨⟨[]⟩, []⟩)]⟩
        ([] ++ ("_comment", Json.str "hello") :: [])
      = ovsdb_file_txn_from_members false ⟨[("T", ⟨⟨[]⟩, []⟩)]⟩ ([] ++ [])
    ∧ ovsdb_file_txn_from_json ⟨[("T", ⟨⟨[]⟩, []⟩)]⟩
        (Json.obj ([] ++ ("_date", Json.int 42) :: [])) false
      = ovsdb_file_txn_from_json ⟨[("T", ⟨⟨[]⟩, []⟩)]⟩ (Json.obj ([] ++ [])) false
    ∧ ovsdb_file_txn_from_json ⟨[("T", ⟨⟨[]⟩, []⟩)]⟩
        (Json.obj ([] ++ ("_comment", Json.str "hello") :: [])) false
      = ovsdb_file_txn_from_json ⟨[("T", ⟨⟨[]⟩, []⟩)]⟩ (Json.obj ([] ++ [])) false :=
  reserved_keys_ignored false ⟨[("T", ⟨⟨[]⟩, []⟩)]⟩ [] [] 42 (Json.str "hello")
    rfl rfl

/-- Counterexample to C8 as stated: the value `INT32_MAX = 2147483647` fits
in a 32-bit signed integer, yet the renderer leaves it unchanged — the code
multiplies only when `t < INT32_MAX` holds strictly (file.c:1319-1322). -/
theorem show_log_date_boundary_cex :
    do_show_log_standalone_date (Json.obj [("_date", Json.int 2147483647)])
        = some 2147483647
    ∧ (-2147483648 : Int) ≤ 2147483647
    ∧ (2147483647 : Int) ≤ 2147483647
    ∧ some (2147483647 : Int) ≠ some ((2147483647 : Int) * 1000) :=
  ⟨rfl, by decide, by decide, by decide⟩

/-- C8 (amended): when the standalone show-log renderer prints a record's
`_date` integer, it multiplies by 1000 (seconds re-interpretation) exactly
for values strictly less than `INT32_MAX = 2147483647` — including every
value too negative for 32 bits — and renders values at or above `INT32_MAX`
unchanged as milliseconds (file.c:1311-1327). -/
theorem show_log_date_heuristic (t : Int) :
    (t < 2147483647 →
      do_show_log_standalone_date (Json.obj [("_date", Json.int t)])
        = some (t * 1000))
    ∧ (2147483647 ≤ t →
      do_show_log_standalone_date (Json.obj [("_date", Json.int t)]) = some t) := by
  constructor
  · intro h
    simp [do_show_log_standalone_date, assocFind, show_log_date_msec, h]
  · intro h
    have hn : ¬ t < 2147483647 := not_lt.2 h
    simp [do_show_log_standalone_date, assocFind, show_log_date_msec, hn]

/-- Witness for C8 (amended) at 5 (old seconds timestamp, scaled) and at
3000000000 (modern millisecond timestamp, unchanged). -/
theorem show_log_date_heuristic_witness :
    do_show_log_standalone_date (Json.obj [("_date", Json.int 5)]) = some (5 * 1000)
    ∧ do_show_log_standalone_date (Json.obj [("_date", Json.int 3000000000)])
        = some 3000000000 :=
  ⟨(show_log_date_heuristic 5).1 (by decide),
    (show_log_date_heuristic 3000000000).2 (by decide)⟩

/-- Folding the snapshot writer over a database none of whose tables has any
rows adds no row and leaves the accumulated file transaction absent. -/
theorem snapshot_fold_empty (emitCol : String → Json → Bool) :
    ∀ (ts : List (String × Table)), (∀ p ∈ ts, p.2.rows = []) →
    ts.foldl
        (fun ftxn tp =>
          tp.2.rows.foldl
            (fun f rp => ovsdb_file_txn_add_row emitCol f tp.1 rp.1 rp.2) ftxn)
        ⟨none, none⟩
      = (⟨none, none⟩ : FileTxn) := by
  intro ts h
  induction ts with
  | nil => rfl
  | cons p rest ih =>
    have hp := h p (by simp)
    simp only [List.foldl_cons, hp, List.foldl_nil]
    exact ih (fun q hq => h q (by simp [hq]))

/-- C10: the snapshot writer always appends a post-schema record even for a
database containing no rows — when the accumulated transaction JSON is
absent, `ovsdb_file_txn_commit` substitutes an empty JSON object and writes
it, containing only `_date` and, when supplied, `_comment` — so a saved copy
or compacted log always holds exactly two records; a live commit of an empty
change set, by contrast, returns success without writing anything
(file.c:400-430, 663-691, 517-520). -/
theorem snapshot_always_two_records (emitCol : String → Json → Bool) (db : Db)
    (schemaJson : Json) (cs : String) (date : Int) (file : OvsdbFile) (now : Nat)
    (writeOk : Except String Unit) (newLog : Except String (List LogRecord))
    (h : ∀ p ∈ db.tables, p.2.rows = []) :
    (ovsdb_file_save_copy_records emitCol db schemaJson (some cs) date).length = 2
    ∧ ovsdb_file_save_copy_records emitCol db schemaJson (some cs) date
        = [schemaJson,
            Json.obj [("_comment", Json.str cs), ("_date", Json.int date)]]
    ∧ ovsdb_file_save_copy_records emitCol db schemaJson none date
        = [schemaJson, Json.obj [("_date", Json.int date)]]
    ∧ (ovsdb_file_commit file none now writeOk newLog).file.log = file.log
    ∧ (ovsdb_file_commit file none now writeOk newLog).wroteRecord = false
    ∧ (ovsdb_file_commit file none now writeOk newLog).result = Except.ok () := by
  have hs : snapshotFileTxn emitCol db = ⟨none, none⟩ :=
    snapshot_fold_empty emitCol db.tables h
  refine ⟨?_, ?_, ?_, rfl, rfl, rfl⟩
  · simp [ovsdb_file_save_copy_records, hs, fileTxnJson, ovsdb_file_txn_commit]
  · simp [ovsdb_file_save_copy_records, hs, fileTxnJson, ovsdb_file_txn_commit,
      jsonObjPut, assocFind]
  · simp [ovsdb_file_save_copy_records, hs, fileTxnJson, ovsdb_file_txn_commit,
      jsonObjPut, assocFind]

/-- Witness for C10: a database with one row-less table T; the saved copy is
exactly schema plus one record carrying only the reserved members, and a
concrete live commit of an empty change set leaves the log alone. -/
theorem snapshot_always_two_records_witness :
    (ovsdb_file_save_copy_records (fun _ _ => true) ⟨[("T", ⟨⟨["k"]⟩, []⟩)]⟩
        (Json.str "schema") (some "compacted") 42).length = 2
    ∧ ovsdb_file_save_copy_records (fun _ _ => true) ⟨[("T", ⟨⟨["k"]⟩, []⟩)]⟩
        (Json.str "schema") (some "compacted") 42
      = [Json.str "schema",
          Json.obj [("_comment", Json.str "compacted"), ("_date", Json.int 42)]]
    ∧ ovsdb_file_save_copy_records (fun _ _ => true) ⟨[("T", ⟨⟨["k"]⟩, []⟩)]⟩
        (Json.str "schema") none 42
      = [Json.str "schema", Json.obj [("_date", Json.int 42)]]
    ∧ (ovsdb_file_commit ⟨[], 0, 0, 0, 0⟩ none 0 (Except.ok ())
        (Except.error "x")).file.log = ([] : List LogRecord)
    ∧ (ovsdb_file_commit ⟨[], 0, 0, 0, 0⟩ none 0 (Except.ok ())
        (Except.error "x")).wroteRecord = false
    ∧ (ovsdb_file_commit ⟨[], 0, 0, 0, 0⟩ none 0 (Except.ok ())
        (Except.error "x")).result = Except.ok () :=
  snapshot_always_two_records (fun _ _ => true) ⟨[("T", ⟨⟨["k"]⟩, []⟩)]⟩
    (Json.str "schema") "compacted" 42 ⟨[], 0, 0, 0, 0⟩ 0 (Except.ok ())
    (Except.error "x")
    (by intro p hp; simp only [List.mem_singleton] at hp; subst hp; rfl)
